import Mathlib

/-!
Shallow embedding of `sidechain_cli/utils/config_file.py`: the persistent
registry of chain/witness/bridge records, its liveness-probing load path,
name-based lookups, and the bridge protocol derivation.

Machine conventions:
* Python dataclasses become Lean structures with the same field names.
* The persisted JSON document holds exactly the dataclass fields, so
  `from_dict` / `asdict` are modelled as the identity on typed records and
  the document type reuses the record types.
* `httpx.post` is modelled by a deterministic probe oracle
  `probe : String → ProbeOutcome` from the request URL to either an HTTP
  response (any status code) or a transport-level error.  The source
  catches exactly four httpx error classes; every other transport error
  escapes the `except` clause, which the embedding renders as
  `Except.error`.
* Raising an exception is modelled with `Except.error`; the
  `SidechainCLIException` carries the formatted message string.
-/

namespace SidechainCLI

/-- A currency descriptor as stored in a bridge record: either the literal
string marker for the native asset or an issued {currency, issuer} pair
(`sidechain_cli.utils.types.Currency`). -/
inductive Currency where
  | xrp
  | issued (currency : String) (issuer : String)
deriving DecidableEq, Repr

/-- The value placed in an Issue field of a bridge descriptor: the native
marker `"XRP"` or an `xrpl.models.IssuedCurrency` object. -/
inductive IssueField where
  | xrp
  | issuedCurrency (currency : String) (issuer : String)
deriving DecidableEq, Repr

/-- `_to_issued_currency`: the native marker maps to itself, anything else is
decoded with `IssuedCurrency.from_dict`, which keeps the currency and issuer
fields unchanged. -/
def to_issued_currency : Currency → IssueField
  | .xrp => .xrp
  | .issued currency issuer => .issuedCurrency currency issuer

/-- Fields shared by chain and witness records (`ServerConfig`). -/
structure ServerConfig where
  name : String
  type : String
  pid : Int
  exe : String
  config : String
  http_ip : String
  http_port : Nat
deriving DecidableEq, Repr

/-- `ServerConfig.is_docker`. -/
def ServerConfig.is_docker (s : ServerConfig) : Bool :=
  s.exe == "docker"

/-- `ChainConfig`: a server record extended with the websocket endpoint. -/
structure ChainConfig extends ServerConfig where
  ws_ip : String
  ws_port : Nat
deriving DecidableEq, Repr

/-- `WitnessConfig`: a server record with no extra fields. -/
structure WitnessConfig extends ServerConfig where
deriving DecidableEq, Repr

/-- `BridgeConfig`. -/
structure BridgeConfig where
  name : String
  chains : String × String
  num_witnesses : Int
  door_accounts : String × String
  xchain_currencies : Currency × Currency
  signature_reward : String
  create_account_amounts : String × String
deriving DecidableEq, Repr

/-- The `xrpl.models.XChainBridge` protocol object. -/
structure XChainBridge where
  locking_chain_door : String
  locking_chain_issue : IssueField
  issuing_chain_door : String
  issuing_chain_issue : IssueField
deriving DecidableEq, Repr

/-- `BridgeConfig.get_bridge`. -/
def BridgeConfig.get_bridge (b : BridgeConfig) : XChainBridge :=
  { locking_chain_door := b.door_accounts.1
    locking_chain_issue := to_issued_currency b.xchain_currencies.1
    issuing_chain_door := b.door_accounts.2
    issuing_chain_issue := to_issued_currency b.xchain_currencies.2 }

/-- The dictionary produced by `BridgeConfig.to_xrpl`: four fixed keys. -/
structure XrplBridgeDict where
  LockingChainDoor : String
  LockingChainIssue : IssueField
  IssuingChainDoor : String
  IssuingChainIssue : IssueField
deriving DecidableEq, Repr

/-- `BridgeConfig.to_xrpl`. -/
def BridgeConfig.to_xrpl (b : BridgeConfig) : XrplBridgeDict :=
  { LockingChainDoor := b.door_accounts.1
    LockingChainIssue := to_issued_currency b.xchain_currencies.1
    IssuingChainDoor := b.door_accounts.2
    IssuingChainIssue := to_issued_currency b.xchain_currencies.2 }

/-- A received HTTP response, of any status (2xx, 4xx, 5xx, or an
application-level error body). -/
structure HttpResponse where
  status_code : Nat
  body : String
deriving DecidableEq, Repr

/-- Transport-level errors `httpx.post` can raise.  The first four are the
classes named in the `except` clause of `_get_running_processes`; the rest
are the other members of httpx's `TransportError` hierarchy. -/
inductive TransportError where
  | connectError
  | remoteProtocolError
  | readError
  | writeError
  | connectTimeout
  | readTimeout
  | writeTimeout
  | poolTimeout
  | closeError
  | localProtocolError
deriving DecidableEq, Repr

/-- Whether a transport error is one of the four classes listed in the
`except` clause of `_get_running_processes`. -/
def caught_error : TransportError → Bool
  | .connectError => true
  | .remoteProtocolError => true
  | .readError => true
  | .writeError => true
  | _ => false

/-- Outcome of one `httpx.post` call: a response was received, or a
transport-level error was raised. -/
inductive ProbeOutcome where
  | response (r : HttpResponse)
  | failure (e : TransportError)
deriving DecidableEq, Repr

/-- The probe's liveness classification of one outcome: `some true` = alive
(record kept), `some false` = dead (record dropped), `none` = the error is
not in the `except` clause and the exception escapes. -/
def classify : ProbeOutcome → Option Bool
  | .response _ => some true
  | .failure e => if caught_error e then some false else none

/-- The JSON body posted by the probe: the single key `method` with value
`server_info`, and no parameters. -/
def probe_request : List (String × String) :=
  [("method", "server_info")]

/-- Duck-typed access to the probe endpoint fields, mirroring the
`ServerData` TypedDict bound of `_get_running_processes`. -/
class ServerData (S : Type) where
  http_ip : S → String
  http_port : S → Nat

instance : ServerData ServerConfig :=
  ⟨ServerConfig.http_ip, ServerConfig.http_port⟩

instance : ServerData ChainConfig :=
  ⟨fun c => c.http_ip, fun c => c.http_port⟩

instance : ServerData WitnessConfig :=
  ⟨fun w => w.http_ip, fun w => w.http_port⟩

/-- The URL the probe posts to: `http://{http_ip}:{http_port}`. -/
def http_url {S : Type} [ServerData S] (s : S) : String :=
  "http://" ++ ServerData.http_ip s ++ ":" ++ toString (ServerData.http_port s)

/-- Whether the probe oracle returns some HTTP response for this server's
endpoint (the condition under which `_get_running_processes` keeps it). -/
def responds {S : Type} [ServerData S] (probe : String → ProbeOutcome)
    (s : S) : Bool :=
  match probe (http_url s) with
  | .response _ => true
  | .failure _ => false

/-- `_get_running_processes`: posts the probe request to each server in
order; a received response appends the server to the result, an error in
the `except` clause skips it, and any other transport error propagates out
of the loop (discarding the partial list). -/
def get_running_processes {S : Type} [ServerData S]
    (probe : String → ProbeOutcome) :
    List S → Except TransportError (List S)
  | [] => .ok []
  | server :: rest =>
    match probe (http_url server) with
    | .response _ =>
      (get_running_processes probe rest).map (fun l => server :: l)
    | .failure e =>
      if caught_error e then get_running_processes probe rest
      else .error e

/-- The shape of the persisted document: three lists of records (the JSON
entries carry exactly the dataclass fields, so `from_dict`/`asdict` are
identities at this level). -/
structure Document where
  chains : List ChainConfig
  witnesses : List WitnessConfig
  bridges : List BridgeConfig
deriving DecidableEq, Repr

/-- The in-memory collections of a `ConfigFile` object. -/
structure ConfigFile where
  chains : List ChainConfig
  witnesses : List WitnessConfig
  bridges : List BridgeConfig
deriving DecidableEq, Repr

/-- `ConfigFile.to_dict`: pure projection back to the document shape. -/
def ConfigFile.to_dict (c : ConfigFile) : Document :=
  ⟨c.chains, c.witnesses, c.bridges⟩

/-- The body of `ConfigFile.__init__` before the final `write_to_file`:
probe the chains, probe the witnesses, pass bridges through. -/
def ConfigFile.init (probe : String → ProbeOutcome) (data : Document) :
    Except TransportError ConfigFile := do
  let chains ← get_running_processes probe data.chains
  let witnesses ← get_running_processes probe data.witnesses
  return ⟨chains, witnesses, data.bridges⟩

/-- The exception raised by failed lookups, carrying its message. -/
structure SidechainCLIException where
  message : String
deriving DecidableEq, Repr

/-- `ConfigFile.get_chain`: linear scan of `self.chains`, first name match
wins, else raise. -/
def ConfigFile.get_chain (c : ConfigFile) (name : String) :
    Except SidechainCLIException ChainConfig :=
  match c.chains.find? (fun chain => chain.name == name) with
  | some chain => .ok chain
  | none => .error ⟨"No chain with name " ++ name ++ "."⟩

/-- `ConfigFile.get_witness`: linear scan of `self.witnesses`. -/
def ConfigFile.get_witness (c : ConfigFile) (name : String) :
    Except SidechainCLIException WitnessConfig :=
  match c.witnesses.find? (fun witness => witness.name == name) with
  | some witness => .ok witness
  | none => .error ⟨"No witness with name " ++ name ++ "."⟩

/-- `ConfigFile.get_server`: scan chains first, then witnesses; the dynamic
type of the returned object (chain or witness) is kept as a sum. -/
def ConfigFile.get_server (c : ConfigFile) (name : String) :
    Except SidechainCLIException (ChainConfig ⊕ WitnessConfig) :=
  match c.chains.find? (fun chain => chain.name == name) with
  | some chain => .ok (.inl chain)
  | none =>
    match c.witnesses.find? (fun witness => witness.name == name) with
    | some witness => .ok (.inr witness)
    | none => .error ⟨"No server with name " ++ name ++ "."⟩

/-- `ConfigFile.get_bridge`: linear scan of `self.bridges`. -/
def ConfigFile.get_bridge (c : ConfigFile) (name : String) :
    Except SidechainCLIException BridgeConfig :=
  match c.bridges.find? (fun bridge => bridge.name == name) with
  | some bridge => .ok bridge
  | none => .error ⟨"No bridge with name " ++ name ++ "."⟩

/-- The registry's externally visible state: the in-memory store, the
current content of the persisted `config.json`, and a count of writes
performed (so "no write happened" is expressible). -/
structure StoreState where
  store : ConfigFile
  file : Document
  writes : Nat
deriving DecidableEq, Repr

/-- `ConfigFile.write_to_file`: dump `to_dict` of the store to the file. -/
def write_to_file (st : StoreState) : StoreState :=
  ⟨st.store, st.store.to_dict, st.writes + 1⟩

/-- `ConfigFile.from_file` followed by `ConfigFile.__init__`: read the
persisted document, prune it through the probe, install the in-memory
collections and immediately persist them (the constructor ends with
`write_to_file`, before any lookup can be served on the object). -/
def load (probe : String → ProbeOutcome) (st : StoreState) :
    Except TransportError StoreState := do
  let cf ← ConfigFile.init probe st.file
  return write_to_file ⟨cf, st.file, st.writes⟩

/-- `ConfigFile.get_chain` as a state operation: the method's body only
reads `self.chains`, so the state passes through untouched. -/
def get_chain_op (name : String) (st : StoreState) :
    Except SidechainCLIException ChainConfig × StoreState :=
  (st.store.get_chain name, st)

/-- `ConfigFile.get_witness` as a state operation. -/
def get_witness_op (name : String) (st : StoreState) :
    Except SidechainCLIException WitnessConfig × StoreState :=
  (st.store.get_witness name, st)

/-- `ConfigFile.get_server` as a state operation. -/
def get_server_op (name : String) (st : StoreState) :
    Except SidechainCLIException (ChainConfig ⊕ WitnessConfig) × StoreState :=
  (st.store.get_server name, st)

/-- `ConfigFile.get_bridge` as a state operation. -/
def get_bridge_op (name : String) (st : StoreState) :
    Except SidechainCLIException BridgeConfig × StoreState :=
  (st.store.get_bridge name, st)

/-- Drop the first element satisfying `p`, keep everything else. -/
def remove_first {α : Type} (p : α → Bool) : List α → List α
  | [] => []
  | x :: rest => if p x then rest else x :: remove_first p rest

/-- Modelled from the spec: the repository sources under verification do
not contain the implementation of `removeServer` (only this helper module
and the test harness are present).  Per the spec it removes the first
record with a matching name from the relevant collections (chains and
witnesses) and persists the full document; absence raises no error. -/
def remove_server (name : String) (st : StoreState) : StoreState :=
  write_to_file
    ⟨⟨remove_first (fun c => c.name == name) st.store.chains,
      remove_first (fun w => w.name == name) st.store.witnesses,
      st.store.bridges⟩,
     st.file, st.writes⟩

/-- Modelled from the spec: the repository sources under verification do
not contain the implementation of `removeBridge`.  Per the spec it removes
the first bridge record with a matching name and persists the full
document; absence raises no error. -/
def remove_bridge (name : String) (st : StoreState) : StoreState :=
  write_to_file
    ⟨⟨st.store.chains, st.store.witnesses,
      remove_first (fun b => b.name == name) st.store.bridges⟩,
     st.file, st.writes⟩

/-! ### Helper lemmas -/

/-- A linear scan whose prefix contains no match returns the first match. -/
theorem find_first {α : Type} (p : α → Bool) (pre post : List α) (c : α)
    (hc : p c = true) (hpre : ∀ x ∈ pre, p x = false) :
    (pre ++ c :: post).find? p = some c := by
  induction pre with
  | nil => simp [List.find?, hc]
  | cons hd tl ih =>
    have hhd : p hd = false := hpre hd (by simp)
    simp only [List.cons_append, List.find?, hhd]
    exact ih fun x hx => hpre x (by simp [hx])

/-- A scan with no match at all returns none. -/
theorem find_none {α : Type} (p : α → Bool) (l : List α)
    (h : ∀ x ∈ l, p x = false) : l.find? p = none := by
  induction l with
  | nil => rfl
  | cons hd tl ih =>
    have hhd : p hd = false := h hd (by simp)
    simp only [List.find?, hhd]
    exact ih fun x hx => h x (by simp [hx])

/-- `responds` is exactly the `alive` classification of the probe outcome. -/
theorem responds_eq_classify {S : Type} [ServerData S]
    (probe : String → ProbeOutcome) (s : S) :
    responds probe s = (classify (probe (http_url s)) == some true) := by
  unfold responds classify
  cases probe (http_url s) with
  | response r => rfl
  | failure e => cases he : caught_error e <;> simp [he]

/-- When every probe outcome is classifiable (response, or an error in the
`except` clause), the probing loop succeeds and keeps exactly the servers
whose endpoint responded, in order. -/
theorem get_running_processes_eq_filter {S : Type} [ServerData S]
    (probe : String → ProbeOutcome) (servers : List S)
    (h : ∀ s ∈ servers, classify (probe (http_url s)) ≠ none) :
    get_running_processes probe servers = .ok (servers.filter (responds probe)) := by
  induction servers with
  | nil => rfl
  | cons hd tl ih =>
    have htl : ∀ s ∈ tl, classify (probe (http_url s)) ≠ none :=
      fun s hs => h s (by simp [hs])
    have hhd : classify (probe (http_url hd)) ≠ none := h hd (by simp)
    unfold get_running_processes
    cases hp : probe (http_url hd) with
    | response r =>
      simp [ih htl, List.filter, responds, hp, Except.map]
    | failure e =>
      cases he : caught_error e with
      | true => simp [he, ih htl, List.filter, responds, hp]
      | false =>
        exfalso
        apply hhd
        simp [classify, hp, he]

/-- Removing by a predicate nothing satisfies changes nothing. -/
theorem remove_first_of_no_match {α : Type} (p : α → Bool) (l : List α)
    (h : ∀ x ∈ l, p x = false) : remove_first p l = l := by
  induction l with
  | nil => rfl
  | cons hd tl ih =>
    have hhd : p hd = false := h hd (by simp)
    simp only [remove_first, hhd, Bool.false_eq_true, if_false]
    rw [ih fun x hx => h x (by simp [hx])]

/-- Removing by a predicate deletes exactly the first match. -/
theorem remove_first_of_first_match {α : Type} (p : α → Bool)
    (pre post : List α) (c : α) (hc : p c = true)
    (hpre : ∀ x ∈ pre, p x = false) :
    remove_first p (pre ++ c :: post) = pre ++ post := by
  induction pre with
  | nil => simp [remove_first, hc]
  | cons hd tl ih =>
    have hhd : p hd = false := hpre hd (by simp)
    simp only [List.cons_append, remove_first, hhd, Bool.false_eq_true, if_false,
      List.append_eq]
    rw [ih fun x hx => hpre x (by simp [hx])]

/-! ### Concrete records used by the closed witness theorems -/

/-- A chain record whose endpoint the example probe answers. -/
def chainA : ChainConfig :=
  { name := "chainA", type := "rippled", pid := 1, exe := "rippled",
    config := "a.cfg", http_ip := "127.0.0.1", http_port := 5005,
    ws_ip := "127.0.0.1", ws_port := 6005 }

/-- A chain record whose endpoint the example probe refuses. -/
def chainB : ChainConfig :=
  { name := "chainB", type := "rippled", pid := 2, exe := "rippled",
    config := "b.cfg", http_ip := "127.0.0.1", http_port := 5007,
    ws_ip := "127.0.0.1", ws_port := 6007 }

/-- A witness record whose endpoint the example probe answers. -/
def witnessA : WitnessConfig :=
  { name := "witnessA", type := "witness", pid := 3, exe := "witnessd",
    config := "w.json", http_ip := "127.0.0.1", http_port := 6010 }

/-- A witness record that shares its name with `chainA`. -/
def witnessShared : WitnessConfig :=
  { name := "chainA", type := "witness", pid := 4, exe := "witnessd",
    config := "w2.json", http_ip := "127.0.0.1", http_port := 6011 }

/-- An example bridge record over issued currencies. -/
def bridgeA : BridgeConfig :=
  { name := "bridgeA", chains := ("chainA", "chainB"), num_witnesses := 5,
    door_accounts := ("rA", "rB"),
    xchain_currencies := (.issued "USD" "rI1", .issued "EUR" "rI2"),
    signature_reward := "100", create_account_amounts := ("5000000", "5000000") }

/-- An in-memory store over the example records. -/
def cf_example : ConfigFile :=
  ⟨[chainA, chainB], [witnessA], [bridgeA]⟩

/-- A store whose witness collection shadows a chain name. -/
def cf_shared : ConfigFile :=
  ⟨[chainA], [witnessShared], [bridgeA]⟩

/-- A probe oracle that answers `chainA`'s and `witnessA`'s endpoints and
refuses the connection everywhere else. -/
def probe_example : String → ProbeOutcome := fun url =>
  if url == "http://127.0.0.1:5005" || url == "http://127.0.0.1:6010" then
    .response ⟨200, "ok"⟩
  else
    .failure .connectError

/-- A probe oracle that answers every endpoint. -/
def probe_alive : String → ProbeOutcome := fun _ => .response ⟨200, "ok"⟩

/-- A probe oracle whose connection attempts always time out: the raised
error class is not in the `except` clause of `_get_running_processes`. -/
def probe_timeout : String → ProbeOutcome := fun _ => .failure .connectTimeout

/-! ### Claim theorems -/

/-- C4: `get_bridge` maps index 0 of `door_accounts`/`xchain_currencies` to
the locking side and index 1 to the issuing side of the four-field
descriptor, and each Issue field is the native marker exactly when the
descriptor is the literal `"XRP"` and otherwise the {currency, issuer}
pair unchanged from the record. -/
theorem bridge_descriptor_derivation :
    (∀ b : BridgeConfig,
      b.get_bridge.locking_chain_door = b.door_accounts.1 ∧
      b.get_bridge.issuing_chain_door = b.door_accounts.2 ∧
      b.get_bridge.locking_chain_issue = to_issued_currency b.xchain_currencies.1 ∧
      b.get_bridge.issuing_chain_issue = to_issued_currency b.xchain_currencies.2) ∧
    to_issued_currency Currency.xrp = IssueField.xrp ∧
    (∀ currency issuer, to_issued_currency (Currency.issued currency issuer) =
      IssueField.issuedCurrency currency issuer) :=
  ⟨fun _ => ⟨rfl, rfl, rfl, rfl⟩, rfl, fun _ _ => rfl⟩

/-- C9: the dictionary built by `to_xrpl` and the `XChainBridge` object
built by `get_bridge` agree field for field on every bridge record. -/
theorem to_xrpl_agrees_with_get_bridge (b : BridgeConfig) :
    b.to_xrpl.LockingChainDoor = b.get_bridge.locking_chain_door ∧
    b.to_xrpl.LockingChainIssue = b.get_bridge.locking_chain_issue ∧
    b.to_xrpl.IssuingChainDoor = b.get_bridge.issuing_chain_door ∧
    b.to_xrpl.IssuingChainIssue = b.get_bridge.issuing_chain_issue :=
  ⟨rfl, rfl, rfl, rfl⟩

/-- C5: each of `get_chain`, `get_witness` and `get_bridge` scans only its
own collection in insertion order and returns the first name match (so
with duplicate names only the first match is returned), and when no record
of that collection matches it raises the exception naming the requested
name and the searched category — the statement quantifies over every
store, so it holds in particular when a record of another kind carries the
name. -/
theorem lookup_first_match_and_not_found (cfg : ConfigFile) (name : String) :
    (∀ pre c post, cfg.chains = pre ++ c :: post → c.name = name →
      (∀ x ∈ pre, x.name ≠ name) → cfg.get_chain name = .ok c) ∧
    ((∀ c ∈ cfg.chains, c.name ≠ name) →
      cfg.get_chain name = .error ⟨"No chain with name " ++ name ++ "."⟩) ∧
    (∀ pre w post, cfg.witnesses = pre ++ w :: post → w.name = name →
      (∀ x ∈ pre, x.name ≠ name) → cfg.get_witness name = .ok w) ∧
    ((∀ w ∈ cfg.witnesses, w.name ≠ name) →
      cfg.get_witness name = .error ⟨"No witness with name " ++ name ++ "."⟩) ∧
    (∀ pre b post, cfg.bridges = pre ++ b :: post → b.name = name →
      (∀ x ∈ pre, x.name ≠ name) → cfg.get_bridge name = .ok b) ∧
    ((∀ b ∈ cfg.bridges, b.name ≠ name) →
      cfg.get_bridge name = .error ⟨"No bridge with name " ++ name ++ "."⟩) := by
  refine ⟨?_, ?_, ?_, ?_, ?_, ?_⟩
  · intro pre c post hsplit hc hpre
    unfold ConfigFile.get_chain
    rw [hsplit, find_first _ pre post c (by simp [hc])
      (fun x hx => by simp [hpre x hx])]
  · intro habs
    unfold ConfigFile.get_chain
    rw [find_none _ _ (fun x hx => by simp [habs x hx])]
  · intro pre w post hsplit hw hpre
    unfold ConfigFile.get_witness
    rw [hsplit, find_first _ pre post w (by simp [hw])
      (fun x hx => by simp [hpre x hx])]
  · intro habs
    unfold ConfigFile.get_witness
    rw [find_none _ _ (fun x hx => by simp [habs x hx])]
  · intro pre b post hsplit hb hpre
    unfold ConfigFile.get_bridge
    rw [hsplit, find_first _ pre post b (by simp [hb])
      (fun x hx => by simp [hpre x hx])]
  · intro habs
    unfold ConfigFile.get_bridge
    rw [find_none _ _ (fun x hx => by simp [habs x hx])]

/-- C5 witness: on the example store, `get_chain` finds `chainA` and raises
the formatted not-found exception for an absent name. -/
theorem lookup_first_match_and_not_found_witness :
    cf_example.get_chain "chainA" = .ok chainA ∧
    cf_example.get_chain "nochain" =
      .error ⟨"No chain with name " ++ "nochain" ++ "."⟩ :=
  ⟨(lookup_first_match_and_not_found cf_example "chainA").1 [] chainA [chainB]
      rfl rfl (by decide),
   (lookup_first_match_and_not_found cf_example "nochain").2.1 (by decide)⟩

/-- C6: `get_server` scans the chains first and the witnesses second, so a
chain shadows a witness of the same name; a witness is returned only when
no chain matches; and when neither collection contains the name the raised
exception names the requested name and the server category. -/
theorem get_server_union_precedence (cfg : ConfigFile) (name : String) :
    (∀ pre c post, cfg.chains = pre ++ c :: post → c.name = name →
      (∀ x ∈ pre, x.name ≠ name) →
      cfg.get_server name = .ok (.inl c)) ∧
    ((∀ c ∈ cfg.chains, c.name ≠ name) →
      ∀ pre w post, cfg.witnesses = pre ++ w :: post → w.name = name →
      (∀ x ∈ pre, x.name ≠ name) →
      cfg.get_server name = .ok (.inr w)) ∧
    ((∀ c ∈ cfg.chains, c.name ≠ name) →
      (∀ w ∈ cfg.witnesses, w.name ≠ name) →
      cfg.get_server name = .error ⟨"No server with name " ++ name ++ "."⟩) := by
  refine ⟨?_, ?_, ?_⟩
  · intro pre c post hsplit hc hpre
    unfold ConfigFile.get_server
    rw [hsplit, find_first _ pre post c (by simp [hc])
      (fun x hx => by simp [hpre x hx])]
  · intro hchains pre w post hsplit hw hpre
    unfold ConfigFile.get_server
    rw [find_none _ _ (fun x hx => by simp [hchains x hx]), hsplit,
      find_first _ pre post w (by simp [hw]) (fun x hx => by simp [hpre x hx])]
  · intro hchains hwit
    unfold ConfigFile.get_server
    rw [find_none _ _ (fun x hx => by simp [hchains x hx]),
      find_none _ _ (fun x hx => by simp [hwit x hx])]

/-- C6 witness: on the store where a witness shares `chainA`'s name, the
chain wins; an absent name raises the server not-found exception. -/
theorem get_server_union_precedence_witness :
    cf_shared.get_server "chainA" = .ok (.inl chainA) ∧
    cf_shared.get_server "nobody" =
      .error ⟨"No server with name " ++ "nobody" ++ "."⟩ :=
  ⟨(get_server_union_precedence cf_shared "chainA").1 [] chainA [] rfl rfl
      (by decide),
   (get_server_union_precedence cf_shared "nobody").2.2 (by decide) (by decide)⟩

/-- C7: the probe posts the body `{method: server_info}` with no
parameters to `http://{http_ip}:{http_port}`; every received HTTP response
(any status code, including 4xx/5xx or an application-level error body)
classifies the record alive, and the dead classification arises exactly
for the four transport-level connection failures listed in the `except`
clause (connection error, reset/truncated response, read error, write
error). -/
theorem probe_request_and_classification :
    probe_request = [("method", "server_info")] ∧
    (∀ s : ServerConfig, http_url s =
      "http://" ++ s.http_ip ++ ":" ++ toString s.http_port) ∧
    (∀ r : HttpResponse, classify (.response r) = some true) ∧
    (∀ o : ProbeOutcome, classify o = some false ↔
      (o = .failure .connectError ∨ o = .failure .remoteProtocolError ∨
       o = .failure .readError ∨ o = .failure .writeError)) := by
  refine ⟨rfl, fun s => rfl, fun r => rfl, fun o => ?_⟩
  cases o with
  | response r => simp [classify]
  | failure e => cases e <;> simp [classify, caught_error]

/-- C10: every lookup, whether it finds a record or raises the not-found
exception, returns the same registry state it was given: the chains,
witnesses and bridges collections are untouched, the persisted document's
content is untouched, and the write counter shows that no write to the
document was performed. -/
theorem lookups_are_pure_reads (st : StoreState) (name : String) :
    get_chain_op name st = (st.store.get_chain name, st) ∧
    get_witness_op name st = (st.store.get_witness name, st) ∧
    get_server_op name st = (st.store.get_server name, st) ∧
    get_bridge_op name st = (st.store.get_bridge name, st) :=
  ⟨rfl, rfl, rfl, rfl⟩

/-- A registry state whose persisted document holds two chains (one the
example probe answers, one it refuses), a witness and a bridge. -/
def st_example : StoreState :=
  ⟨⟨[], [], []⟩, ⟨[chainA, chainB], [witnessA], [bridgeA]⟩, 0⟩

/-- A registry state whose persisted document matches its in-memory
collections. -/
def st_sync : StoreState :=
  ⟨cf_example, cf_example.to_dict, 1⟩

/-- C1: when every probe outcome is classifiable, `load` succeeds and its
result keeps exactly the chain and witness records classified alive, in
document order, passes the bridge records through unfiltered, and has
already persisted the pruned set (the constructor's final `write_to_file`
runs before the object can serve any lookup): the resulting file is the
projection of the pruned store and the write counter has advanced. -/
theorem load_prunes_and_persists (probe : String → ProbeOutcome)
    (st : StoreState)
    (hc : ∀ s ∈ st.file.chains, classify (probe (http_url s)) ≠ none)
    (hw : ∀ w ∈ st.file.witnesses, classify (probe (http_url w)) ≠ none) :
    ∃ st' : StoreState, load probe st = .ok st' ∧
      st'.store.chains = st.file.chains.filter
        (fun s => classify (probe (http_url s)) == some true) ∧
      st'.store.witnesses = st.file.witnesses.filter
        (fun w => classify (probe (http_url w)) == some true) ∧
      st'.store.bridges = st.file.bridges ∧
      st'.file = st'.store.to_dict ∧
      st'.writes = st.writes + 1 := by
  have hch := get_running_processes_eq_filter probe st.file.chains hc
  have hwi := get_running_processes_eq_filter probe st.file.witnesses hw
  refine ⟨write_to_file ⟨⟨st.file.chains.filter (responds probe),
    st.file.witnesses.filter (responds probe), st.file.bridges⟩,
    st.file, st.writes⟩, ?_, ?_, ?_, rfl, rfl, rfl⟩
  · simp only [load, ConfigFile.init, hch, hwi]
    rfl
  · exact List.filter_congr fun x _ => responds_eq_classify probe x
  · exact List.filter_congr fun x _ => responds_eq_classify probe x

/-- C1 witness: loading the example document through the example probe
keeps exactly the responsive servers and persists the pruned set. -/
theorem load_prunes_and_persists_witness :
    ∃ st' : StoreState, load probe_example st_example = .ok st' ∧
      st'.store.chains = st_example.file.chains.filter
        (fun s => classify (probe_example (http_url s)) == some true) ∧
      st'.store.witnesses = st_example.file.witnesses.filter
        (fun w => classify (probe_example (http_url w)) == some true) ∧
      st'.store.bridges = st_example.file.bridges ∧
      st'.file = st'.store.to_dict ∧
      st'.writes = st_example.writes + 1 :=
  load_prunes_and_persists probe_example st_example (by decide) (by decide)

/-- C3: when every chain and witness endpoint of the persisted document
responds, the load path keeps everything and the projection back to the
document shape returns the original document unchanged (lossless,
deterministic, order-preserving). -/
theorem load_round_trip (probe : String → ProbeOutcome) (st : StoreState)
    (hc : ∀ s ∈ st.file.chains, responds probe s = true)
    (hw : ∀ w ∈ st.file.witnesses, responds probe w = true) :
    ∃ st' : StoreState, load probe st = .ok st' ∧
      st'.store.to_dict = st.file := by
  have hc' : ∀ s ∈ st.file.chains, classify (probe (http_url s)) ≠ none := by
    intro s hs h0
    have h1 := hc s hs
    rw [responds_eq_classify, h0] at h1
    simp at h1
  have hw' : ∀ w ∈ st.file.witnesses, classify (probe (http_url w)) ≠ none := by
    intro w hwm h0
    have h1 := hw w hwm
    rw [responds_eq_classify, h0] at h1
    simp at h1
  have hch := get_running_processes_eq_filter probe st.file.chains hc'
  have hwi := get_running_processes_eq_filter probe st.file.witnesses hw'
  rw [List.filter_eq_self.mpr hc] at hch
  rw [List.filter_eq_self.mpr hw] at hwi
  refine ⟨write_to_file ⟨⟨st.file.chains, st.file.witnesses, st.file.bridges⟩,
    st.file, st.writes⟩, ?_, rfl⟩
  simp only [load, ConfigFile.init, hch, hwi]
  rfl

/-- C3 witness: loading the example document through the all-alive probe
and projecting back returns the document unchanged. -/
theorem load_round_trip_witness :
    ∃ st' : StoreState, load probe_alive st_example = .ok st' ∧
      st'.store.to_dict = st_example.file :=
  load_round_trip probe_alive st_example (by decide) (by decide)

/-- C2 counterexample: a connect timeout is a transport-level failure of
the probe attempt, but its error class is not in the `except` clause of
`_get_running_processes`, so it escapes the loop and `load` propagates it
to its caller instead of classifying the record dead. -/
theorem load_raises_on_connect_timeout :
    load probe_timeout ⟨⟨[], [], []⟩, ⟨[chainA], [], []⟩, 0⟩ =
      .error TransportError.connectTimeout := rfl

/-- C2 amended: a probe failure of one of the four error classes listed in
the `except` clause (connection error, remote-protocol error, read error,
write error) is absorbed — the record is dropped and the loop continues —
while a probe failure of any other transport-error class (e.g. a timeout)
propagates out of `_get_running_processes` as an exception. -/
theorem probe_failures_outside_except_clause {S : Type} [ServerData S]
    (probe : String → ProbeOutcome) :
    (∀ servers : List S,
      (∀ s ∈ servers, ∀ e, probe (http_url s) = .failure e →
        caught_error e = true) →
      get_running_processes probe servers =
        .ok (servers.filter (responds probe))) ∧
    (∀ (s : S) (rest : List S) (e : TransportError),
      probe (http_url s) = .failure e → caught_error e = false →
      get_running_processes probe (s :: rest) = .error e) := by
  constructor
  · intro servers h
    apply get_running_processes_eq_filter
    intro s hs
    cases hp : probe (http_url s) with
    | response r => simp [classify]
    | failure e =>
      have he := h s hs e hp
      simp [classify, he]
  · intro s rest e hp he
    simp [get_running_processes, hp, he]

/-- C2 amended witness: the example probe's connection errors only drop
records, while the timing-out probe propagates its error. -/
theorem probe_failures_outside_except_clause_witness :
    get_running_processes probe_example [chainA, chainB] = .ok [chainA] ∧
    get_running_processes probe_timeout [chainA] =
      .error TransportError.connectTimeout := by
  constructor
  · refine ((probe_failures_outside_except_clause probe_example).1
      [chainA, chainB] ?_).trans (by rfl)
    intro s hs e hp
    simp only [List.mem_cons, List.not_mem_nil, or_false] at hs
    rcases hs with rfl | rfl
    · have hA : probe_example (http_url chainA) = .response ⟨200, "ok"⟩ := rfl
      rw [hA] at hp
      cases hp
    · have hB : probe_example (http_url chainB) = .failure .connectError := rfl
      rw [hB] at hp
      cases hp
      rfl
  · exact (probe_failures_outside_except_clause probe_timeout).2
      chainA [] .connectTimeout rfl rfl

/-- C8: for a registry whose persisted document matches its collections,
removing an absent name changes neither the collections nor the persisted
document's content and raises no error (both operations are total), while
removing a present name deletes the first record with that name from the
relevant collection, leaves the other collections unchanged, and
re-persists the document. -/
theorem remove_absent_noop_present_removes (st : StoreState) (name : String)
    (hsync : st.file = st.store.to_dict) :
    ((∀ c ∈ st.store.chains, c.name ≠ name) →
     (∀ w ∈ st.store.witnesses, w.name ≠ name) →
      (remove_server name st).store = st.store ∧
      (remove_server name st).file = st.file) ∧
    ((∀ b ∈ st.store.bridges, b.name ≠ name) →
      (remove_bridge name st).store = st.store ∧
      (remove_bridge name st).file = st.file) ∧
    (∀ pre c post, st.store.chains = pre ++ c :: post → c.name = name →
      (∀ x ∈ pre, x.name ≠ name) →
      (remove_server name st).store.chains = pre ++ post ∧
      (remove_server name st).store.bridges = st.store.bridges ∧
      (remove_server name st).file = (remove_server name st).store.to_dict) ∧
    (∀ pre b post, st.store.bridges = pre ++ b :: post → b.name = name →
      (∀ x ∈ pre, x.name ≠ name) →
      (remove_bridge name st).store.bridges = pre ++ post ∧
      (remove_bridge name st).store.chains = st.store.chains ∧
      (remove_bridge name st).store.witnesses = st.store.witnesses ∧
      (remove_bridge name st).file = (remove_bridge name st).store.to_dict) := by
  obtain ⟨⟨chs, wts, brs⟩, fl, wr⟩ := st
  refine ⟨?_, ?_, ?_, ?_⟩
  · intro hch hwi
    have h1 : remove_first (fun c => c.name == name) chs = chs :=
      remove_first_of_no_match _ _ (fun x hx => by simp [hch x hx])
    have h2 : remove_first (fun w => w.name == name) wts = wts :=
      remove_first_of_no_match _ _ (fun x hx => by simp [hwi x hx])
    constructor
    · simp [remove_server, write_to_file, h1, h2]
    · simp only [remove_server, write_to_file, h1, h2]
      exact hsync.symm
  · intro hbr
    have h1 : remove_first (fun b => b.name == name) brs = brs :=
      remove_first_of_no_match _ _ (fun x hx => by simp [hbr x hx])
    constructor
    · simp [remove_bridge, write_to_file, h1]
    · simp only [remove_bridge, write_to_file, h1]
      exact hsync.symm
  · intro pre c post hsplit hc hpre
    have hsplit2 : chs = pre ++ c :: post := hsplit
    have h1 : remove_first (fun x => x.name == name) chs = pre ++ post := by
      rw [hsplit2]
      exact remove_first_of_first_match _ pre post c (by simp [hc])
        (fun x hx => by simp [hpre x hx])
    exact ⟨by simp [remove_server, write_to_file, h1], rfl, rfl⟩
  · intro pre b post hsplit hb hpre
    have hsplit2 : brs = pre ++ b :: post := hsplit
    have h1 : remove_first (fun x => x.name == name) brs = pre ++ post := by
      rw [hsplit2]
      exact remove_first_of_first_match _ pre post b (by simp [hb])
        (fun x hx => by simp [hpre x hx])
    exact ⟨by simp [remove_bridge, write_to_file, h1], rfl, rfl, rfl⟩

/-- C8 witness: removing a name present in no collection leaves the
synchronized example registry's store and persisted document unchanged. -/
theorem remove_absent_noop_witness :
    (remove_server "ghost" st_sync).store = st_sync.store ∧
    (remove_server "ghost" st_sync).file = st_sync.file :=
  (remove_absent_noop_present_removes st_sync "ghost" rfl).1
    (by decide) (by decide)

end SidechainCLI
